import Mathlib

/-!
Verification development for the Gmail AI assistant pipeline
(`src/assistant.py`).  The Python source is shallowly embedded: every
stage function of the message-analysis pipeline becomes an executable
Lean definition, language-model calls are abstracted into an oracle of
response strings (the code treats each response as an opaque string),
and Python exceptions at the modelled call boundaries become `Except`
values.  Python string truthiness (`not s`) is modelled as equality
with `""`, `str.strip` / `str.lower` / slicing / `in` are modelled by
the executable helpers below over `List Char` data (ASCII-faithful,
which covers every literal the source matches against).
-/

namespace GmailAssistant

/-- Python whitespace characters recognised by `str.strip()`
(ASCII subset: space, tab, newline, carriage return, vertical tab,
form feed). -/
def pyWhitespace (c : Char) : Bool :=
  c = ' ' ∨ c = '\t' ∨ c = '\n' ∨ c = '\r' ∨ c = '\x0b' ∨ c = '\x0c'

/-- Model of Python `s.strip()`: drop whitespace from both ends. -/
def pyStrip (s : String) : String :=
  String.mk (((s.data.dropWhile pyWhitespace).reverse.dropWhile pyWhitespace).reverse)

/-- Model of Python `s.lower()` (ASCII case folding, which covers all
sentinel markers the source compares against). -/
def pyLower (s : String) : String :=
  String.mk (s.data.map Char.toLower)

/-- Model of the Python substring test `needle in hay`. -/
def strContains (hay needle : String) : Bool :=
  (List.range (hay.data.length + 1)).any
    (fun i => needle.data.isPrefixOf (hay.data.drop i))

/-- Outcome of `part.get("body", {}).get("data")` together with the
base64url decode attempt on it: the key can be absent/empty (falsy),
the decode can raise, or it yields a text. -/
inductive BodyData where
  | absent : BodyData
  | undecodable : BodyData
  | text (s : String) : BodyData
deriving DecidableEq, Repr

/-- A list of Gmail payload part nodes.  Each `cons` node is one part
dict: its `mimeType`, its body data, whether its `parts` key is absent
(`subAbsent = true`; `subparts` is then ignored, by convention `nil`),
its nested part list, and the remaining sibling parts.  The list is
encoded as a single non-nested inductive so that the extraction
recursion below is structural. -/
inductive Parts where
  | nil : Parts
  | cons (mimeType : String) (data : BodyData) (subAbsent : Bool)
      (subparts : Parts) (rest : Parts) : Parts
deriving DecidableEq, Repr

/-- Embedding of `extract_text_from_parts` (src/assistant.py:142-164):
first `text/plain` leaf with decodable data wins (decode failures and
absent data fall through to the next part), any other node carrying a
`parts` key is searched recursively and its result returned when
non-empty, and the empty string is returned when nothing matches.
The `multipart/alternative` branch and the generic nested-parts branch
of the source perform the identical recursion, so they collapse to one
branch here. -/
def extract_text_from_parts : Parts → String
  | Parts.nil => ""
  | Parts.cons mime data subAbsent subparts rest =>
    if mime = "text/plain" then
      match data with
      | BodyData.text s => s
      | _ => extract_text_from_parts rest
    else
      if subAbsent then extract_text_from_parts rest
      else if extract_text_from_parts subparts ≠ "" then extract_text_from_parts subparts
      else extract_text_from_parts rest

/-- Embedding of `premium_openai_call` (src/assistant.py:166-181).
The backend call is modelled as an `Except`: `Except.error e` is any
raised exception with text `e` (auth, rate limit, timeout, malformed
response), `Except.ok t` a successful completion with content `t`.
The Lean function is total: no exception propagates; every failure is
wrapped into the single sentinel string carrying the error text, and a
success returns the stripped model text. -/
def premium_openai_call (backend : Except String String) : String :=
  match backend with
  | Except.ok content => pyStrip content
  | Except.error e => "[AI Service Unavailable: " ++ e ++ "]"

/-- Oracle for the language-model responses consumed by the pipeline
stages.  Each field returns the (already `premium_openai_call`-wrapped)
response string for one stage's prompt; the arguments are exactly the
data the source interpolates into that prompt. -/
structure Gateway where
  langResp : String → String
  summaryResp : String → String → String
  classifyResp : String → String → String → String
  draft1Resp : String → String → List String → String → String
  draft2Resp : String → String → List String → String → String
  toneResp : String → String → String

/-- Embedding of `detect_language_premium` (src/assistant.py:183-198),
paired with the number of gateway invocations it performs. -/
def detect_language_premium (gw : Gateway) (text : String) : String × Nat :=
  if text = "" ∨ (pyStrip text).length < 10 then ("English", 0)
  else
    if (gw.langResp (text.take 500)).startsWith "[AI Service" then ("English", 1)
    else (gw.langResp (text.take 500), 1)

/-- Embedding of `executive_email_summary` (src/assistant.py:200-225),
paired with the number of gateway invocations it performs. -/
def executive_email_summary (gw : Gateway) (body language : String) : String × Nat :=
  if body = "" ∨ (pyStrip body).length < 20 then
    ("Email contains minimal content - likely automated or system message.", 0)
  else
    if (gw.summaryResp (body.take 1500) language).startsWith "[AI Service" then
      ("Strategic email analysis unavailable - manual review recommended for: "
        ++ body.take 100 ++ "...", 1)
    else (gw.summaryResp (body.take 1500) language, 1)

/-- Embedding of `EXECUTIVE_COMMAND_LIST` (src/assistant.py:228-263):
the fixed command taxonomy. -/
def EXECUTIVE_COMMAND_LIST : List String := [
  "strategic_partnership", "investment_inquiry", "board_communication", "executive_meeting",
  "contract_negotiation", "merger_acquisition", "funding_discussion", "investor_relations",
  "vip_client_request", "enterprise_demo", "custom_solution", "strategic_consultation",
  "executive_escalation", "premium_support", "white_glove_service",
  "send_invoice", "billing_question", "pricing_request", "follow_up", "general_question",
  "account_closure", "update_contact", "change_account_details", "duplicate_request",
  "partnership_request", "media_inquiry", "speaking_engagement", "conference_invite",
  "press_release", "analyst_briefing", "thought_leadership",
  "executive_recruitment", "job_application", "referral_submission", "interview_schedule_request",
  "talent_acquisition", "leadership_hiring",
  "legal_inquiry", "contract_request", "compliance_question", "regulatory_update",
  "intellectual_property", "data_governance", "privacy_policy_question",
  "technical_partnership", "ai_collaboration", "innovation_project", "research_proposal",
  "technology_demo", "proof_of_concept", "beta_program",
  "technical_issue", "access_request", "security_alert", "system_integration",
  "enterprise_deployment", "training_request",
  "forward_to_leadership", "schedule_executive_review", "escalate_to_ceo", "no_action"]

/-- Embedding of `classify_executive_commands` (src/assistant.py:265-299),
paired with the gateway invocation count.  `evalFn` abstracts Python's
`eval` on the bracketed response text: `none` models `eval` (or the
subsequent iteration) raising, `some cs` models it yielding the string
elements `cs` (non-string elements can never pass the taxonomy filter,
so they are dropped by the oracle without loss). -/
def classify_executive_commands (gw : Gateway) (evalFn : String → Option (List String))
    (subject summary language : String) : List String × Nat :=
  if subject = "" ∧ summary = "" then (["no_action"], 0)
  else
    if (gw.classifyResp subject summary language).startsWith "[AI Service" then
      (["no_action"], 1)
    else if (gw.classifyResp subject summary language).startsWith "["
        ∧ (gw.classifyResp subject summary language).endsWith "]" then
      match evalFn (gw.classifyResp subject summary language) with
      | none => (["no_action"], 1)
      | some commands =>
        if commands.filter (fun cmd => EXECUTIVE_COMMAND_LIST.contains cmd) = [] then
          (["no_action"], 1)
        else (commands.filter (fun cmd => EXECUTIVE_COMMAND_LIST.contains cmd), 1)
    else (["no_action"], 1)

/-- Embedding of `generate_executive_responses` (src/assistant.py:301-341),
paired with the gateway invocation count (the two drafting calls). -/
def generate_executive_responses (gw : Gateway) (subject body : String)
    (commands : List String) (language : String) : (String × String) × Nat :=
  if commands = [] ∨ commands.contains "no_action" then
    (("[Executive Review: Non-actionable communication]",
      "[Executive Review: Non-actionable communication]"), 0)
  else if body = "" ∨ (pyStrip body).length < 10 then
    (("[Review: Insufficient content for response]",
      "[Review: Insufficient content for response]"), 0)
  else
    ((gw.draft1Resp subject (body.take 1000) commands language,
      gw.draft2Resp subject (body.take 1000) commands language), 2)

/-- Embedding of `analyze_business_tone` (src/assistant.py:343-363),
paired with the gateway invocation count. -/
def analyze_business_tone (gw : Gateway) (body language : String) : String × Nat :=
  if body = "" ∨ (pyStrip body).length < 10 then ("neutral", 0)
  else
    if ["positive", "neutral", "negative", "urgent", "opportunity"].contains
        (pyStrip (pyLower (gw.toneResp (body.take 500) language))) then
      (pyStrip (pyLower (gw.toneResp (body.take 500) language)), 1)
    else ("neutral", 1)

/-- The "strategic language indicators" of `calculate_executive_confidence`. -/
def strategic_terms : List String :=
  ["partnership", "strategic", "innovation", "collaboration", "value", "solution", "enterprise"]

/-- The "executive communication markers" of `calculate_executive_confidence`. -/
def exec_markers : List String :=
  ["look forward", "next steps", "opportunity", "discuss further", "schedule", "explore"]

/-- The "premium command bonus" subset of `calculate_executive_confidence`. -/
def premium_commands : List String :=
  ["strategic_partnership", "investment_inquiry", "executive_meeting", "vip_client_request"]

/-- Embedding of `calculate_executive_confidence` (src/assistant.py:365-390):
the deterministic confidence score, no gateway call.  The source's
sequence of `confidence += k` statements, each guarded by a substring
or membership test, is rendered as the sum of its guarded increments
over the base score of 70. -/
def calculate_executive_confidence (draft : String) (commands : List String) : Nat :=
  if draft = "" ∨ strContains (pyLower draft) "[executive skip"
      ∨ strContains (pyLower draft) "[ai service" then 0
  else if commands.contains "no_action" then 25
  else
    min (70
      + (if strategic_terms.any (fun term => strContains (pyLower draft) term) then 15 else 0)
      + (if exec_markers.any (fun marker => strContains (pyLower draft) marker) then 10 else 0)
      + (if premium_commands.any (fun cmd => commands.contains cmd) then 5 else 0)) 100

/-- The action label `{name, color}` written to the dashboard. -/
structure ActionLabel where
  name : String
  color : String
deriving DecidableEq, Repr

/-- The high-priority commands tested by `determine_executive_action`. -/
def priorityCommands : List String :=
  ["strategic_partnership", "investment_inquiry", "executive_meeting"]

/-- Embedding of `determine_executive_action` (src/assistant.py:392-401).
The source reads only `email.get("reply_draft_1", "")` and
`email.get("detected_commands", [])` from the record, so those two
fields are the arguments here. -/
def determine_executive_action (reply_draft_1 : String) (detected_commands : List String) :
    ActionLabel :=
  if strContains (pyLower reply_draft_1) "[skip" then ⟨"Skip", "gray"⟩
  else if strContains (pyLower reply_draft_1) "[ai service" then ⟨"AI Review Required", "yellow"⟩
  else if priorityCommands.any (fun cmd => detected_commands.contains cmd) then
    ⟨"Executive Priority", "red"⟩
  else ⟨"Response Drafted", "blue"⟩

/-- The per-command routing table of `assign_executive_team`: each
taxonomy command maps to at most one team (the source's if/elif chain),
unmatched commands to `none`. -/
def teamFor (cmd : String) : Option String :=
  if cmd ∈ ["strategic_partnership", "investment_inquiry", "merger_acquisition"] then
    some "Strategy"
  else if cmd ∈ ["vip_client_request", "enterprise_demo", "custom_solution"] then
    some "Enterprise Sales"
  else if cmd ∈ ["executive_recruitment", "leadership_hiring"] then
    some "Enterprise HR"
  else if cmd ∈ ["legal_inquiry", "contract_negotiation", "compliance_question"] then
    some "Legal"
  else if cmd ∈ ["technical_partnership", "ai_collaboration", "innovation_project"] then
    some "Innovation"
  else if cmd ∈ ["media_inquiry", "speaking_engagement", "thought_leadership"] then
    some "Marketing"
  else none

/-- Embedding of `assign_executive_team` (src/assistant.py:403-419).
Python's `list(set(teams))` produces the deduplicated team set in an
unspecified order; it is modelled as `dedup` (first-occurrence order),
and the theorems about it speak of the underlying set. -/
def assign_executive_team (commands : List String) : List String :=
  if (commands.filterMap teamFor).dedup = [] then ["Executive Office"]
  else (commands.filterMap teamFor).dedup

/-- A raw Gmail message payload as consumed by the per-message loop of
`run_assistant` (src/assistant.py:454-505): its header list, part tree
and top-level body data.  Timestamp formatting and the message id are
carried by the source but never branch on anything, so they are not
modelled. -/
structure Payload where
  headers : List (String × String)
  parts : Parts
  bodyData : BodyData

/-- Header lookup as performed by the dict comprehension
`{h["name"]: h["value"] for h in headers}` followed by `.get`: the last
occurrence of a repeated header name wins. -/
def headerValue (headers : List (String × String)) (name : String) : Option String :=
  ((headers.filter (fun h => h.1 = name)).getLast?).map (fun h => h.2)

/-- Body resolution of the per-message loop (src/assistant.py:472-481):
the part-tree extraction result when non-empty, otherwise the decoded
top-level body data, with a placeholder for a decode failure and a
placeholder for absent data. -/
def resolveBody (parts : Parts) (bodyData : BodyData) : String :=
  let body := extract_text_from_parts parts
  if body ≠ "" then body
  else
    match bodyData with
    | BodyData.text s => s
    | BodyData.undecodable => "[Executive Review: Content extraction required]"
    | BodyData.absent => "[Executive Review: No readable content available]"

/-- The fields a message carries after Step 2 of the pipeline
(metadata extraction, content filter, language detection). -/
structure Stage2Email where
  subject : String
  sender : String
  body : String
  detected_language : String
deriving Repr

/-- The fully assembled analysis record after Steps 3-6. -/
structure Email where
  subject : String
  sender : String
  body : String
  detected_language : String
  summary : String
  detected_commands : List String
  reply_draft_1 : String
  reply_draft_2 : String
  tone : String
  reply_confidence : Nat
deriving Repr

/-- Step 2 of `run_assistant` for one message (src/assistant.py:459-501):
extract subject/sender with their defaults and truncations, resolve the
body, drop the message when the stripped body is shorter than 25
characters (before any model invocation), and otherwise detect the
language and keep the message with the body truncated to 2500
characters.  The second component counts gateway invocations made for
this message. -/
def processMessage (gw : Gateway) (p : Payload) : Option Stage2Email × Nat :=
  if (pyStrip (resolveBody p.parts p.bodyData)).length < 25 then (none, 0)
  else
    (some ⟨((headerValue p.headers "Subject").getD "(Executive Review Required)").take 200,
           ((headerValue p.headers "From").getD "").take 100,
           (resolveBody p.parts p.bodyData).take 2500,
           (detect_language_premium gw (resolveBody p.parts p.bodyData)).1⟩,
     (detect_language_premium gw (resolveBody p.parts p.bodyData)).2)

/-- Steps 3-6 of `run_assistant` for one surviving message
(src/assistant.py:513-549): summary, command classification, dual
response drafts, tone, confidence.  The source runs each step as a
loop over all messages before the next step; since no step reads
another message's fields, running them fused per message yields the
identical record list and call count.  The second component counts
gateway invocations. -/
def buildRecord (gw : Gateway) (evalFn : String → Option (List String))
    (e : Stage2Email) : Email × Nat :=
  let s := executive_email_summary gw e.body e.detected_language
  let c := classify_executive_commands gw evalFn e.subject s.1 e.detected_language
  let r := generate_executive_responses gw e.subject e.body c.1 e.detected_language
  let t := analyze_business_tone gw e.body e.detected_language
  let conf := calculate_executive_confidence r.1.1 c.1
  (⟨e.subject, e.sender, e.body, e.detected_language, s.1, c.1, r.1.1, r.1.2, t.1, conf⟩,
   s.2 + c.2 + r.2 + t.2)

/-- Step 2 over the whole batch: each element of `fetches` is the
outcome of fetching and parsing one thread's message
(`Except.error ()` models the per-message `try` catching any exception;
the message is skipped and the loop continues).  Returns the surviving
Stage-2 messages in batch order and the total gateway call count. -/
def pipelineStage2 (gw : Gateway) : List (Except Unit Payload) → List Stage2Email × Nat
  | [] => ([], 0)
  | f :: rest =>
    let tail := pipelineStage2 gw rest
    match f with
    | Except.error _ => tail
    | Except.ok p =>
      match processMessage gw p with
      | (none, m) => (tail.1, m + tail.2)
      | (some e, m) => (e :: tail.1, m + tail.2)

/-- The full derivation pipeline over a batch: Step 2 then Steps 3-6,
returning the final records in batch order and the total gateway call
count. -/
def pipelineRecords (gw : Gateway) (evalFn : String → Option (List String))
    (fetches : List (Except Unit Payload)) : List Email × Nat :=
  let s2 := pipelineStage2 gw fetches
  let recs := s2.1.map (buildRecord gw evalFn)
  (recs.map (fun r => r.1), s2.2 + (recs.map (fun r => r.2)).sum)

/-- Python truthiness of an optional environment string: `None` and the
empty string are both falsy. -/
def falsyStr : Option String → Bool
  | none => true
  | some s => s = ""

/-- The external world `run_assistant` executes against: the three
required environment variables, the outcome of the startup OpenAI
connectivity check, of the Gmail delegation setup, and of the thread
listing (whose payload is the per-thread fetch outcome list), the
gateway oracle, the `eval` oracle, the Notion client construction
outcome, and the per-record Notion create outcome (by record index). -/
structure RunEnv where
  openaiKey : Option String
  notionToken : Option String
  notionDbId : Option String
  connectivityCheck : Except String Unit
  gmailSetup : Except String Unit
  threads : Except String (List (Except Unit Payload))
  gw : Gateway
  evalFn : String → Option (List String)
  notionConnect : Except String Unit
  notionCreate : Nat → Bool

/-- The observable outcome of one `run_assistant` invocation:
`fatal` is a raised `ValueError`, the other four constructors are the
four `return` statements, each carrying the counts its summary string
interpolates. -/
inductive RunOutcome where
  | fatal (msg : String) : RunOutcome
  | noNewMail : RunOutcome
  | noneRequired (scanned : Nat) : RunOutcome
  | syncFailed (processed : Nat) (err : String) : RunOutcome
  | report (processed : Nat) (synced : Nat) : RunOutcome
deriving DecidableEq, Repr

/-- Whether the run returned a summary (any non-`fatal` outcome). -/
def RunOutcome.isSummary : RunOutcome → Bool
  | RunOutcome.fatal _ => false
  | _ => true

/-- Embedding of the control flow of `run_assistant`
(src/assistant.py:8-667): missing/empty required environment variables
raise; a failing startup OpenAI connectivity check raises; a failing
Gmail delegation setup raises; a failing thread listing raises; an
empty thread list returns the "inbox is current" summary; a batch in
which no message survives returns the "none required attention"
summary with the scanned count; a failing Notion client construction
returns the partial-failure summary with the processed count; and
otherwise the run returns the full report with the processed and
synced counts (each record's create failure is caught and only lowers
the synced count). -/
def run_assistant (env : RunEnv) : RunOutcome :=
  if falsyStr env.openaiKey ∨ falsyStr env.notionToken ∨ falsyStr env.notionDbId then
    RunOutcome.fatal
      "Missing critical environment variables for enterprise operations: OPENAI_API_KEY, NOTION_TOKEN, NOTION_DB_ID"
  else
    match env.connectivityCheck with
    | Except.error e => RunOutcome.fatal ("Failed to initialize enterprise OpenAI client: " ++ e)
    | Except.ok _ =>
      match env.gmailSetup with
      | Except.error e =>
        RunOutcome.fatal ("Failed to establish delegated Gmail connection: " ++ e)
      | Except.ok _ =>
        match env.threads with
        | Except.error e =>
          RunOutcome.fatal ("Failed to access executive Gmail account: " ++ e)
        | Except.ok threads =>
          if threads.isEmpty then RunOutcome.noNewMail
          else
            let emails := (pipelineRecords env.gw env.evalFn threads).1
            if emails.isEmpty then RunOutcome.noneRequired threads.length
            else
              match env.notionConnect with
              | Except.error e => RunOutcome.syncFailed emails.length e
              | Except.ok _ =>
                let synced := ((List.range emails.length).filter env.notionCreate).length
                RunOutcome.report emails.length synced

/-- Modelled from the spec: the reply-draft skip-sentinel states of the
data model, section 3 (skipped-no-commands, skipped-insufficient-content,
skipped-not-business-relevant), as the concrete strings the source
produces for them. -/
def specSkipSentinels : List String :=
  ["[Executive Review: Non-actionable communication]",
   "[Review: Insufficient content for response]",
   "[SKIP]"]

/-- Modelled from the spec: the service-unavailable sentinel state, as
the prefix the gateway wrapper produces for it. -/
def specUnavailableSentinel (s : String) : Bool :=
  s.startsWith "[AI Service Unavailable:"

/-- A trivial gateway oracle, used to instantiate theorems at concrete
inputs. -/
def gwZero : Gateway :=
  ⟨fun _ => "", fun _ _ => "", fun _ _ _ => "", fun _ _ _ _ => "",
   fun _ _ _ _ => "", fun _ _ => ""⟩

lemma strContains_of_isPrefixOf {hay needle : String}
    (h : needle.data.isPrefixOf hay.data = true) : strContains hay needle = true := by
  unfold strContains
  rw [List.any_eq_true]
  exact ⟨0, List.mem_range.mpr (Nat.succ_pos _), by simpa using h⟩

lemma isPrefixOf_append_left {l₁ l₂ : List Char} (l₃ : List Char)
    (h : l₁.isPrefixOf l₂ = true) : l₁.isPrefixOf (l₂ ++ l₃) = true := by
  rw [List.isPrefixOf_iff_prefix] at h ⊢
  exact h.trans (List.prefix_append l₂ l₃)

lemma unavailable_marker_in_wrapped (e : String) :
    strContains (pyLower ("[AI Service Unavailable: " ++ e ++ "]")) "[ai service" = true := by
  apply strContains_of_isPrefixOf
  show ("[ai service").data.isPrefixOf
    ((("[AI Service Unavailable: " ++ e) ++ "]").data.map Char.toLower) = true
  rw [String.data_append, String.data_append, List.map_append, List.map_append]
  apply isPrefixOf_append_left
  apply isPrefixOf_append_left
  decide

/-- C1 counterexample: for the empty commands set the Reply Drafter does
return the skip sentinel for both variants with zero gateway calls, but
the Confidence Scorer on that draft and the empty set returns 70, not
the fixed low no-action score 25. -/
theorem drafter_empty_commands_confidence_cex :
    generate_executive_responses gwZero "Invoice #221"
        "Please find the invoice attached, due in thirty days." [] "English" =
      (("[Executive Review: Non-actionable communication]",
        "[Executive Review: Non-actionable communication]"), 0)
    ∧ calculate_executive_confidence
        "[Executive Review: Non-actionable communication]" [] = 70
    ∧ (70 : Nat) ≠ 25 := by
  refine ⟨rfl, by decide, by decide⟩

/-- C1 (amended): for every commands set that is empty or contains
`no_action`, both reply drafts are the non-actionable skip sentinel and
the Gateway is invoked zero times for drafting; the Confidence Scorer on
the resulting draft returns the fixed low no-action score 25 when
`no_action` is present (for the empty set it returns 70 instead, see the
counterexample). -/
theorem drafter_no_action_skips (gw : Gateway) (subject body : String)
    (commands : List String) (language : String)
    (h : commands = [] ∨ "no_action" ∈ commands) :
    generate_executive_responses gw subject body commands language =
      (("[Executive Review: Non-actionable communication]",
        "[Executive Review: Non-actionable communication]"), 0)
    ∧ ("no_action" ∈ commands →
        calculate_executive_confidence
          "[Executive Review: Non-actionable communication]" commands = 25) := by
  constructor
  · unfold generate_executive_responses
    rw [if_pos]
    rcases h with h | h
    · exact Or.inl h
    · exact Or.inr (by simpa using h)
  · intro hna
    unfold calculate_executive_confidence
    rw [if_neg (by decide), if_pos (by simpa using hna)]

/-- Witness for `drafter_no_action_skips` at the concrete commands set
`{no_action}`. -/
theorem drafter_no_action_skips_witness :
    (["no_action"] = ([] : List String) ∨ "no_action" ∈ ["no_action"])
    ∧ generate_executive_responses gwZero "Subject" "A long enough body text here"
        ["no_action"] "English" =
        (("[Executive Review: Non-actionable communication]",
          "[Executive Review: Non-actionable communication]"), 0)
    ∧ calculate_executive_confidence
        "[Executive Review: Non-actionable communication]" ["no_action"] = 25 := by
  have h := drafter_no_action_skips gwZero "Subject" "A long enough body text here"
    ["no_action"] "English" (Or.inr (by decide))
  exact ⟨Or.inr (by decide), h.1, h.2 (by decide)⟩

/-- C2 counterexample: `"[SKIP]"` is one of the skip-sentinel draft
states, yet the Confidence Scorer returns 70 for it (with a command set
free of `no_action`), not 0: the score-zero test matches only the
substrings `"[executive skip"` and `"[ai service"`, neither of which
occurs in any skip sentinel the drafter produces. -/
theorem confidence_skip_sentinel_cex :
    "[SKIP]" ∈ specSkipSentinels
    ∧ calculate_executive_confidence "[SKIP]" ["follow_up"] = 70
    ∧ (70 : Nat) ≠ 0 := by
  refine ⟨by decide, by decide, by decide⟩

/-- C2 (amended): the Confidence Scorer always returns an integer in
[0,100] (a `Nat` bounded by 100); the score is 0 exactly when the draft
is empty or contains `"[executive skip"` or `"[ai service"`
case-insensitively — so the unavailable sentinel scores 0, while the
skip sentinels (such as `"[SKIP]"`) never do. -/
theorem confidence_range_and_zero (draft : String) (commands : List String) :
    calculate_executive_confidence draft commands ≤ 100
    ∧ (calculate_executive_confidence draft commands = 0 ↔
        (draft = "" ∨ strContains (pyLower draft) "[executive skip" = true
          ∨ strContains (pyLower draft) "[ai service" = true))
    ∧ calculate_executive_confidence "[AI Service Unavailable: timeout]" commands = 0
    ∧ calculate_executive_confidence "[SKIP]" commands ≠ 0 := by
  refine ⟨?_, ?_, ?_, ?_⟩
  · unfold calculate_executive_confidence
    split
    · exact Nat.zero_le 100
    · split
      · omega
      · exact Nat.min_le_right _ 100
  · unfold calculate_executive_confidence
    split
    · rename_i hg
      exact iff_of_true rfl hg
    · rename_i hg
      split
      · exact iff_of_false (by omega) hg
      · refine iff_of_false ?_ hg
        split <;> split <;> split <;> decide
  · unfold calculate_executive_confidence
    rw [if_pos (Or.inr (Or.inr (by decide)))]
  · unfold calculate_executive_confidence
    rw [if_neg (by decide)]
    split
    · decide
    · rw [if_neg (by decide), if_neg (by decide)]
      split <;> decide

/-- C3: whatever the subject, summary and language, and whatever string
the Gateway returns (unavailable sentinel, non-list text, or a list with
unknown commands — `evalFn` abstracting the `eval` of the bracketed
text), the Intent Classifier returns a non-empty subset of the fixed
command taxonomy, collapsing to `["no_action"]` whenever filtering
leaves nothing. -/
theorem classify_commands_taxonomy (gw : Gateway) (evalFn : String → Option (List String))
    (subject summary language : String) :
    (classify_executive_commands gw evalFn subject summary language).1 ≠ []
    ∧ ∀ cmd ∈ (classify_executive_commands gw evalFn subject summary language).1,
        cmd ∈ EXECUTIVE_COMMAND_LIST := by
  have hna : "no_action" ∈ EXECUTIVE_COMMAND_LIST := by decide
  unfold classify_executive_commands
  split
  · constructor
    · simp
    · intro cmd hcmd
      simp only [List.mem_singleton] at hcmd
      rw [hcmd]; exact hna
  · split
    · constructor
      · simp
      · intro cmd hcmd
        simp only [List.mem_singleton] at hcmd
        rw [hcmd]; exact hna
    · split
      · rcases hev : evalFn (gw.classifyResp subject summary language) with _ | cs
        · simp only [hev]
          constructor
          · simp
          · intro cmd hcmd
            simp only [List.mem_singleton] at hcmd
            rw [hcmd]; exact hna
        · simp only [hev]
          split
          · constructor
            · simp
            · intro cmd hcmd
              simp only [List.mem_singleton] at hcmd
              rw [hcmd]; exact hna
          · rename_i hne
            constructor
            · simpa using hne
            · intro cmd hcmd
              have := (List.mem_filter.mp hcmd).2
              simpa using this
      · constructor
        · simp
        · intro cmd hcmd
          simp only [List.mem_singleton] at hcmd
          rw [hcmd]; exact hna

lemma pipelineStage2_insert_filtered (gw : Gateway) (p : Payload)
    (hpm : processMessage gw p = (none, 0)) (pre post : List (Except Unit Payload)) :
    pipelineStage2 gw (pre ++ Except.ok p :: post) = pipelineStage2 gw (pre ++ post) := by
  induction pre with
  | nil =>
    simp only [List.nil_append, pipelineStage2, hpm]
    simp
  | cons f rest ih =>
    simp only [List.cons_append, pipelineStage2, List.append_eq, ih]

lemma pipelineStage2_insert_error (gw : Gateway) (pre post : List (Except Unit Payload)) :
    pipelineStage2 gw (pre ++ Except.error () :: post) = pipelineStage2 gw (pre ++ post) := by
  induction pre with
  | nil => simp [pipelineStage2]
  | cons f rest ih =>
    simp only [List.cons_append, pipelineStage2, List.append_eq, ih]

/-- C4: a message whose extracted body, stripped, is shorter than the
25-character threshold yields no processed message and zero gateway
invocations, and inserting it anywhere into a batch leaves the
pipeline's records and total gateway call count unchanged — it is
excluded before any model invocation, not even recorded as skipped. -/
theorem short_body_excluded (gw : Gateway) (evalFn : String → Option (List String))
    (pre post : List (Except Unit Payload)) (p : Payload)
    (h : (pyStrip (resolveBody p.parts p.bodyData)).length < 25) :
    processMessage gw p = (none, 0)
    ∧ pipelineRecords gw evalFn (pre ++ Except.ok p :: post) =
        pipelineRecords gw evalFn (pre ++ post) := by
  have hpm : processMessage gw p = (none, 0) := by
    unfold processMessage
    rw [if_pos h]
  refine ⟨hpm, ?_⟩
  unfold pipelineRecords
  rw [pipelineStage2_insert_filtered gw p hpm pre post]

/-- Witness for `short_body_excluded`: a 2-character body is dropped. -/
theorem short_body_excluded_witness :
    (pyStrip (resolveBody Parts.nil (BodyData.text "hi"))).length < 25
    ∧ processMessage gwZero ⟨[], Parts.nil, BodyData.text "hi"⟩ = (none, 0)
    ∧ pipelineRecords gwZero (fun _ => none)
        ([] ++ Except.ok (⟨[], Parts.nil, BodyData.text "hi"⟩ : Payload) :: []) =
      pipelineRecords gwZero (fun _ => none) ([] ++ []) := by
  have h := short_body_excluded gwZero (fun _ => none) [] []
    ⟨[], Parts.nil, BodyData.text "hi"⟩ (by decide)
  exact ⟨by decide, h.1, h.2⟩

/-- C9: a per-message fetch/parse failure (the per-message `try` catching
an exception) is skipped without aborting the batch: the pipeline's
records and gateway call count over a batch with the failing element are
exactly those of the batch without it, so every other message still
produces its record. -/
theorem fetch_failure_isolated (gw : Gateway) (evalFn : String → Option (List String))
    (pre post : List (Except Unit Payload)) :
    pipelineRecords gw evalFn (pre ++ Except.error () :: post) =
      pipelineRecords gw evalFn (pre ++ post) := by
  unfold pipelineRecords
  rw [pipelineStage2_insert_error gw pre post]

/-- C5 counterexample: the skipped-no-commands sentinel is a
skip-sentinel state, yet the action label computed for it (with
commands `["no_action"]`) is "Response Drafted", not "Skip": the skip
branch matches the substring `"[skip"`, which does not occur in this
sentinel. -/
theorem action_label_skip_sentinel_cex :
    "[Executive Review: Non-actionable communication]" ∈ specSkipSentinels
    ∧ determine_executive_action
        "[Executive Review: Non-actionable communication]" ["no_action"] =
        ⟨"Response Drafted", "blue"⟩
    ∧ ("Response Drafted" : String) ≠ "Skip" := by
  refine ⟨by decide, by decide, by decide⟩

/-- C5 (amended): the action label is an ordered decision list with
first match winning, but its skip test is the substring `"[skip"` of
the lowercased primary draft: the model's `"[SKIP]"` token yields
"Skip", the unavailable sentinel yields "AI Review Required",
and the skipped-no-commands and skipped-insufficient-content sentinels
do NOT yield "Skip" — they fall through to the high-priority-command
test and otherwise to the default "Response Drafted". -/
theorem action_label_decision_list (cmds : List String) :
    determine_executive_action "[SKIP]" cmds = ⟨"Skip", "gray"⟩
    ∧ determine_executive_action "[AI Service Unavailable: timeout]" cmds =
        ⟨"AI Review Required", "yellow"⟩
    ∧ determine_executive_action "[Executive Review: Non-actionable communication]" cmds =
        (if priorityCommands.any (fun cmd => cmds.contains cmd) then
          ⟨"Executive Priority", "red"⟩ else ⟨"Response Drafted", "blue"⟩)
    ∧ determine_executive_action "[Review: Insufficient content for response]" cmds =
        (if priorityCommands.any (fun cmd => cmds.contains cmd) then
          ⟨"Executive Priority", "red"⟩ else ⟨"Response Drafted", "blue"⟩) := by
  refine ⟨?_, ?_, ?_, ?_⟩
  · unfold determine_executive_action
    rw [if_pos (by decide)]
  · unfold determine_executive_action
    rw [if_neg (by decide), if_pos (by decide)]
  · unfold determine_executive_action
    rw [if_neg (by decide), if_neg (by decide)]
  · unfold determine_executive_action
    rw [if_neg (by decide), if_neg (by decide)]

/-- C6: the Routing Resolver's output team set is never empty (falling
back to the single default team), carries no duplicates, and is
order-independent: permuting the input command set leaves the output
set unchanged. -/
theorem routing_nonempty_dedup_invariant (c c' : List String) :
    assign_executive_team c ≠ []
    ∧ (assign_executive_team c).Nodup
    ∧ (c.Perm c' → ∀ t, t ∈ assign_executive_team c ↔ t ∈ assign_executive_team c') := by
  refine ⟨?_, ?_, ?_⟩
  · unfold assign_executive_team
    split
    · simp
    · assumption
  · unfold assign_executive_team
    split
    · simp
    · exact List.nodup_dedup _
  · intro hp t
    have hperm : ((c.filterMap teamFor).dedup).Perm ((c'.filterMap teamFor).dedup) :=
      (hp.filterMap teamFor).dedup
    unfold assign_executive_team
    by_cases hc : (c.filterMap teamFor).dedup = []
    · have hc' : (c'.filterMap teamFor).dedup = [] := by
        rw [hc] at hperm
        exact hperm.nil_eq.symm
      rw [if_pos hc, if_pos hc']
    · have hc' : ¬(c'.filterMap teamFor).dedup = [] := by
        intro h0
        rw [h0] at hperm
        exact hc hperm.symm.nil_eq.symm
      rw [if_neg hc, if_neg hc']
      exact hperm.mem_iff

/-- Witness for `routing_nonempty_dedup_invariant` at a concrete
two-command set and its swap. -/
theorem routing_invariant_witness :
    assign_executive_team ["legal_inquiry", "media_inquiry"] ≠ []
    ∧ (assign_executive_team ["legal_inquiry", "media_inquiry"]).Nodup
    ∧ ∀ t, t ∈ assign_executive_team ["legal_inquiry", "media_inquiry"] ↔
        t ∈ assign_executive_team ["media_inquiry", "legal_inquiry"] := by
  have h := routing_nonempty_dedup_invariant
    ["legal_inquiry", "media_inquiry"] ["media_inquiry", "legal_inquiry"]
  exact ⟨h.1, h.2.1, h.2.2 (by decide)⟩

/-- C7: the Gateway wrapper is a total function of the backend outcome:
any backend failure (the `Except.error` carrying the exception text) is
wrapped into the single unavailable sentinel string carrying that text
and no exception propagates, a success returns the stripped model text,
and the sentinel is treated as score-zero unavailable by the downstream
Confidence Scorer whatever the error text. -/
theorem gateway_failure_wrapped (e t : String) (commands : List String) :
    premium_openai_call (Except.error e) = "[AI Service Unavailable: " ++ e ++ "]"
    ∧ premium_openai_call (Except.ok t) = pyStrip t
    ∧ calculate_executive_confidence (premium_openai_call (Except.error e)) commands = 0 := by
  refine ⟨rfl, rfl, ?_⟩
  show calculate_executive_confidence ("[AI Service Unavailable: " ++ e ++ "]") commands = 0
  unfold calculate_executive_confidence
  rw [if_pos (Or.inr (Or.inr (unavailable_marker_in_wrapped e)))]

/-- An environment whose configuration and startup calls all succeed
and whose inbox listing returns no threads. -/
def envOk : RunEnv := {
  openaiKey := some "sk-test", notionToken := some "secret", notionDbId := some "db",
  connectivityCheck := Except.ok (), gmailSetup := Except.ok (),
  threads := Except.ok [], gw := gwZero, evalFn := fun _ => none,
  notionConnect := Except.ok (), notionCreate := fun _ => true }

/-- The environment `envOk` with the Gmail thread listing — a
mail-source upstream call — failing. -/
def envListFail : RunEnv := { envOk with threads := Except.error "timeout" }

/-- C8 counterexample: with all credentials present, a failure of the
Gmail thread listing — an upstream mail-source call, not a
configuration error — makes the run raise (`ValueError`, modelled as
the `fatal` outcome) instead of returning a summary. -/
theorem run_upstream_failure_cex :
    run_assistant envListFail =
      RunOutcome.fatal "Failed to access executive Gmail account: timeout"
    ∧ (run_assistant envListFail).isSummary = false := ⟨rfl, rfl⟩

/-- C8 (amended): once the configuration is present and the three
startup calls succeed (the OpenAI connectivity check, the Gmail
delegation setup and the thread listing), the run always returns a
summary — whatever the per-message fetch outcomes, the gateway
responses for every stage, the Notion connection outcome and the
per-record create outcomes.  Hard failures are produced by missing
configuration and by those three startup calls, so upstream-service
failures at startup do raise (see the counterexample). -/
theorem run_summary_under_partial_failure (env : RunEnv) (ts : List (Except Unit Payload))
    (h1 : falsyStr env.openaiKey = false) (h2 : falsyStr env.notionToken = false)
    (h3 : falsyStr env.notionDbId = false)
    (h4 : env.connectivityCheck = Except.ok ()) (h5 : env.gmailSetup = Except.ok ())
    (h6 : env.threads = Except.ok ts) :
    (run_assistant env).isSummary = true := by
  unfold run_assistant
  rw [if_neg (by simp [h1, h2, h3]), h4, h5, h6]
  dsimp only
  split
  · rfl
  · split
    · rfl
    · split
      · rfl
      · rfl

/-- Witness for `run_summary_under_partial_failure` at the concrete
environment `envOk`. -/
theorem run_summary_witness :
    falsyStr envOk.openaiKey = false ∧ falsyStr envOk.notionToken = false
    ∧ falsyStr envOk.notionDbId = false
    ∧ envOk.connectivityCheck = Except.ok () ∧ envOk.gmailSetup = Except.ok ()
    ∧ envOk.threads = Except.ok []
    ∧ (run_assistant envOk).isSummary = true :=
  ⟨rfl, rfl, rfl, rfl, rfl, rfl,
   run_summary_under_partial_failure envOk [] rfl rfl rfl rfl rfl rfl⟩

/-- C10: a message whose part tree yields no decodable text and whose
top-level body carries no data gets the fixed placeholder body, whose
stripped length (49) exceeds the 25-character content threshold, so the
message passes the filter and is analyzed — including the
language-detection model call — rather than being dropped. -/
lemma dlp_count_long (gw : Gateway) (text : String)
    (h : ¬(text = "" ∨ (pyStrip text).length < 10)) :
    (detect_language_premium gw text).2 = 1 := by
  unfold detect_language_premium
  rw [if_neg h]
  split <;> rfl

theorem contentless_placeholder_analyzed (gw : Gateway) (p : Payload)
    (h1 : extract_text_from_parts p.parts = "") (h2 : p.bodyData = BodyData.absent) :
    resolveBody p.parts p.bodyData = "[Executive Review: No readable content available]"
    ∧ 25 ≤ (pyStrip (resolveBody p.parts p.bodyData)).length
    ∧ (processMessage gw p).1.isSome = true
    ∧ (processMessage gw p).2 = 1 := by
  have hb : resolveBody p.parts p.bodyData =
      "[Executive Review: No readable content available]" := by
    unfold resolveBody
    rw [h1, h2]
    simp
  refine ⟨hb, ?_, ?_, ?_⟩
  · rw [hb]; decide
  · unfold processMessage
    rw [hb, if_neg (by decide)]
    rfl
  · unfold processMessage
    rw [hb, if_neg (by decide)]
    dsimp only
    exact dlp_count_long gw _ (by decide)

/-- Witness for `contentless_placeholder_analyzed` at the concrete
payload with an empty part list and absent body data. -/
theorem contentless_placeholder_witness :
    extract_text_from_parts Parts.nil = ""
    ∧ resolveBody Parts.nil BodyData.absent =
        "[Executive Review: No readable content available]"
    ∧ 25 ≤ (pyStrip (resolveBody Parts.nil BodyData.absent)).length
    ∧ (processMessage gwZero ⟨[], Parts.nil, BodyData.absent⟩).1.isSome = true
    ∧ (processMessage gwZero ⟨[], Parts.nil, BodyData.absent⟩).2 = 1 := by
  have h := contentless_placeholder_analyzed gwZero ⟨[], Parts.nil, BodyData.absent⟩ rfl rfl
  exact ⟨rfl, h.1, h.2.1, h.2.2.1, h.2.2.2⟩

end GmailAssistant
